import Mathlib

/-!
Shallow embedding of the authentication adapter of the discord-clone
repository (`src/server/auth.ts`, function `mySqlDrizzleAdapter`) over the
Drizzle schema (`users`, `accounts`, `sessions`, `verificationTokens`).

Tables are lists of rows; a Drizzle `select ... where` is a filter over the
list, `.then((res) => res[0])` is `List.head?`, and `?? null` is the
identity on `Option`.  `insert` appends a row, `update ... set ... where`
maps the merge over matching rows, `delete ... where` filters matching rows
out.  Every adapter operation is a function from the store to
`Except AdapterError (result × store)`: `Except.error` models a thrown
`Error`, and an `Except.ok` result carries the (possibly `none`) value the
promise resolves with together with the store after the statements ran.
Timestamps are modelled as `Nat`, all other columns as `String`
(`Option _` when the column or field is nullable/optional).
-/

/-- Row of the `users` table (`schema.ts`): id (PK), name, email,
emailVerified (nullable timestamp), image. -/
structure User where
  id : String
  name : Option String
  email : String
  emailVerified : Option Nat
  image : Option String
deriving DecidableEq, Repr

/-- Row of the `accounts` table: composite PK (provider, providerAccountId),
FK userId, OAuth token material. -/
structure Account where
  userId : String
  type : String
  provider : String
  providerAccountId : String
  refresh_token : Option String
  access_token : Option String
  expires_at : Option Int
  token_type : Option String
  scope : Option String
  id_token : Option String
  session_state : Option String
deriving DecidableEq, Repr

/-- Row of the `sessions` table: PK sessionToken, FK userId, expires. -/
structure Session where
  sessionToken : String
  userId : String
  expires : Nat
deriving DecidableEq, Repr

/-- Row of the `verificationTokens` table: composite PK (identifier, token),
expires. -/
structure VerificationToken where
  identifier : String
  token : String
  expires : Nat
deriving DecidableEq, Repr

/-- The backing store: the four auth tables of the schema, each a list of
rows in insertion order. -/
structure Store where
  users : List User
  accounts : List Account
  sessions : List Session
  verificationTokens : List VerificationToken
deriving DecidableEq, Repr

/-- Errors thrown by the adapter: `new Error("No user id.")` in
`updateUser`, and `new Error("No verification token found.")` in the catch
branch of `useVerificationToken`. -/
inductive AdapterError where
  | noUserId
  | noVerificationTokenFound
deriving DecidableEq, Repr

/-- The argument of `createUser`: the user fields of the payload, with an
optional caller-supplied `id` (overwritten by the spread `{ ...data, id }`). -/
structure AdapterUserInput where
  id : Option String
  name : Option String
  email : String
  emailVerified : Option Nat
  image : Option String
deriving DecidableEq, Repr

/-- The argument of `updateUser`: `Partial<AdapterUser> & { id }`.  Each
field is `none` when absent from the payload; nullable columns are
`Option (Option _)` (present-and-null vs absent). -/
structure UserUpdateInput where
  id : Option String
  name : Option (Option String)
  email : Option String
  emailVerified : Option (Option Nat)
  image : Option (Option String)
deriving DecidableEq, Repr

/-- The argument of `updateSession`: partial session fields plus the
required `sessionToken`. -/
structure SessionUpdateInput where
  sessionToken : String
  userId : Option String
  expires : Option Nat
deriving DecidableEq, Repr

/-- JavaScript truthiness test `!data.id` on an optional string field:
true when the field is absent (undefined/null) or the empty string. -/
def jsFalsy : Option String → Bool
  | none => true
  | some s => s.isEmpty

/-- `client.select().from(users).where(eq(users.id, i)).then(res => res[0])`:
the first row of `users` whose id equals `i`. -/
def selectUserById (st : Store) (i : String) : Option User :=
  st.users.find? (fun u => u.id == i)

/-- The row inserted by `createUser`: `{ ...data, id }` — the payload's
fields with the `id` field overwritten by the generated id. -/
def mkUserFromInput (genId : String) (d : AdapterUserInput) : User :=
  { id := genId, name := d.name, email := d.email,
    emailVerified := d.emailVerified, image := d.image }

/-- `createUser(data)`: generates an id (passed here as `genId`, standing
for the `createId()` call), inserts `{ ...data, id }`, then re-reads the
row by that id. -/
def createUser (genId : String) (st : Store) (d : AdapterUserInput) :
    Except AdapterError (Option User × Store) :=
  let st1 : Store := { st with users := st.users ++ [mkUserFromInput genId d] }
  Except.ok (selectUserById st1 genId, st1)

/-- `getUser(data)`: point lookup by id, `?? null` when no row matches. -/
def getUser (st : Store) (i : String) :
    Except AdapterError (Option User × Store) :=
  Except.ok (selectUserById st i, st)

/-- `getUserByEmail(data)`: lookup by email, `?? null` when no row matches. -/
def getUserByEmail (st : Store) (e : String) :
    Except AdapterError (Option User × Store) :=
  Except.ok (st.users.find? (fun u => u.email == e), st)

/-- `createSession(data)`: inserts the row, re-reads by sessionToken. -/
def createSession (st : Store) (s : Session) :
    Except AdapterError (Option Session × Store) :=
  let st1 : Store := { st with sessions := st.sessions ++ [s] }
  Except.ok (st1.sessions.find? (fun x => x.sessionToken == s.sessionToken), st1)

/-- `getSessionAndUser(data)`: select from `sessions` where the token
matches, inner-joined with `users` on `users.id = sessions.userId`;
`res[0] ?? null`. -/
def getSessionAndUser (st : Store) (tok : String) :
    Except AdapterError (Option (Session × User) × Store) :=
  let rows :=
    (st.sessions.filter (fun s => s.sessionToken == tok)).flatMap
      (fun s => (st.users.filter (fun u => u.id == s.userId)).map (fun u => (s, u)))
  Except.ok (rows.head?, st)

/-- The row produced by `update(users).set(data)` on a matching row: each
field present in the payload replaces the stored one (including `id`,
which the payload always carries). -/
def applyUserUpdate (d : UserUpdateInput) (u : User) : User :=
  { id := d.id.getD u.id, name := d.name.getD u.name,
    email := d.email.getD u.email,
    emailVerified := d.emailVerified.getD u.emailVerified,
    image := d.image.getD u.image }

/-- `updateUser(data)`: throws `"No user id."` when `!data.id`; otherwise
updates the rows whose id equals `data.id` and re-reads by that id. -/
def updateUser (st : Store) (d : UserUpdateInput) :
    Except AdapterError (Option User × Store) :=
  if jsFalsy d.id then
    Except.error AdapterError.noUserId
  else
    let i := d.id.getD ""
    let newUsers := st.users.map (fun u => if u.id == i then applyUserUpdate d u else u)
    let st1 : Store := { st with users := newUsers }
    Except.ok (selectUserById st1 i, st1)

/-- The row produced by `update(sessions).set(data)` on a matching row:
the payload's fields replace the stored ones (`sessionToken` is always in
the payload). -/
def applySessionUpdate (d : SessionUpdateInput) (s : Session) : Session :=
  { sessionToken := d.sessionToken, userId := d.userId.getD s.userId,
    expires := d.expires.getD s.expires }

/-- `updateSession(data)`: updates the rows whose sessionToken equals
`data.sessionToken`, then re-reads by the same token; returns `res[0]`
(undefined — here `none` — when no row matches). -/
def updateSession (st : Store) (d : SessionUpdateInput) :
    Except AdapterError (Option Session × Store) :=
  let newSessions := st.sessions.map
    (fun s => if s.sessionToken == d.sessionToken then applySessionUpdate d s else s)
  let st1 : Store := { st with sessions := newSessions }
  Except.ok (st1.sessions.find? (fun s => s.sessionToken == d.sessionToken), st1)

/-- `linkAccount(rawAccount)`: inserts the row; no return value. -/
def linkAccount (st : Store) (a : Account) :
    Except AdapterError (Unit × Store) :=
  Except.ok ((), { st with accounts := st.accounts ++ [a] })

/-- One left-join step of `getUserByAccount`: an account row paired with
each user whose id equals its userId, or with `none` when no user matches. -/
def leftJoinAccountUser (st : Store) (a : Account) : List (Account × Option User) :=
  match st.users.filter (fun u => a.userId == u.id) with
  | [] => [(a, none)]
  | us => us.map (fun u => (a, some u))

/-- `getUserByAccount(account)`: select from `accounts` where provider and
providerAccountId match, left-joined with `users` on
`accounts.userId = users.id`; `res[0] ?? null`; when a row is found,
returns its (possibly null) `user` component. -/
def getUserByAccount (st : Store) (prov paid : String) :
    Except AdapterError (Option User × Store) :=
  let rows :=
    (st.accounts.filter (fun a => a.providerAccountId == paid && a.provider == prov)).flatMap
      (leftJoinAccountUser st)
  match rows.head? with
  | none => Except.ok (none, st)
  | some (_, u) => Except.ok (u, st)

/-- `deleteSession(sessionToken)`: reads the row (`?? null`), deletes every
row with that token, returns the pre-deletion snapshot. -/
def deleteSession (st : Store) (tok : String) :
    Except AdapterError (Option Session × Store) :=
  let sess := st.sessions.find? (fun s => s.sessionToken == tok)
  let rest := st.sessions.filter (fun s => !(s.sessionToken == tok))
  let st1 : Store := { st with sessions := rest }
  Except.ok (sess, st1)

/-- `createVerificationToken(token)`: inserts the row, then re-reads by
`identifier` alone and returns `res[0]`. -/
def createVerificationToken (st : Store) (t : VerificationToken) :
    Except AdapterError (Option VerificationToken × Store) :=
  let st1 : Store := { st with verificationTokens := st.verificationTokens ++ [t] }
  Except.ok (st1.verificationTokens.find? (fun v => v.identifier == t.identifier), st1)

/-- `useVerificationToken(token)`: reads the first row matching
(identifier, token) (`?? null`), deletes every matching row, and returns
the pre-deletion snapshot.  The surrounding `try/catch` rethrows
`"No verification token found."` only when the driver itself rejects a
statement; in the pure data semantics neither the select nor the delete
throws, so the catch branch is unreachable and a missing row resolves to
`none`. -/
def useVerificationToken (st : Store) (ident tok : String) :
    Except AdapterError (Option VerificationToken × Store) :=
  let p := fun v : VerificationToken => v.identifier == ident && v.token == tok
  let deletedToken := st.verificationTokens.find? p
  let rest := st.verificationTokens.filter (fun v => !(p v))
  let st1 : Store := { st with verificationTokens := rest }
  Except.ok (deletedToken, st1)

/-- `deleteUser(id)`: reads the row (`?? null`), deletes every row with
that id, returns the pre-deletion snapshot. -/
def deleteUser (st : Store) (i : String) :
    Except AdapterError (Option User × Store) :=
  let u := st.users.find? (fun x => x.id == i)
  let st1 : Store := { st with users := st.users.filter (fun x => !(x.id == i)) }
  Except.ok (u, st1)

/-- `unlinkAccount(account)`: deletes every row matching (provider,
providerAccountId); returns undefined. -/
def unlinkAccount (st : Store) (prov paid : String) :
    Except AdapterError (Unit × Store) :=
  let rest := st.accounts.filter
    (fun a => !(a.providerAccountId == paid && a.provider == prov))
  let st1 : Store := { st with accounts := rest }
  Except.ok ((), st1)

/-! ### List lemmas used by the adapter proofs -/

/-- The first element of a filtered list is the first element satisfying
the filter. -/
theorem head_filter_eq_find {α : Type} (p : α → Bool) (l : List α) :
    (l.filter p).head? = l.find? p := by
  induction l with
  | nil => rfl
  | cons x t ih =>
    cases hx : p x with
    | true => simp [List.filter_cons, hx]
    | false => simp [List.filter_cons, hx, ih]

/-- No element surviving `filter (fun x => !(p x))` satisfies `p`. -/
theorem find_filter_not {α : Type} (p : α → Bool) (l : List α) :
    (l.filter (fun x => !(p x))).find? p = none := by
  rw [List.find?_eq_none]
  intro x hx
  have hmem := (List.mem_filter.mp hx).2
  simpa using hmem

/-- A delete whose predicate matches no row leaves the list unchanged. -/
theorem filter_not_of_find_none {α : Type} (p : α → Bool) (l : List α)
    (h : l.find? p = none) : l.filter (fun x => !(p x)) = l := by
  rw [List.filter_eq_self]
  intro a ha
  have hna := List.find?_eq_none.mp h a ha
  simpa using hna

/-- `res[0]` of a filtered list joined rowwise by a never-empty expansion:
the head comes from the first matching element. -/
theorem head_filter_flatMap {α β : Type} (q : α → Bool) (f : α → List β)
    (l : List α) (hf : ∀ a, f a ≠ []) :
    ((l.filter q).flatMap f).head? = (l.find? q).bind (fun a => (f a).head?) := by
  induction l with
  | nil => rfl
  | cons x t ih =>
    cases hx : q x with
    | true =>
      rw [List.filter_cons_of_pos hx, List.find?_cons_of_pos _ hx,
        List.flatMap_cons, List.head?_append]
      cases hfa : f x with
      | nil => exact absurd hfa (hf x)
      | cons b bs => simp [hfa]
    | false =>
      rw [List.filter_cons_of_neg (by simp [hx]), List.find?_cons_of_neg _ (by simp [hx])]
      exact ih

/-- An update that rewrites exactly the matching rows (keeping them
matching) commutes with the re-read: the first match after the update is
the updated first match from before. -/
theorem find_map_update {α : Type} (p : α → Bool) (f : α → α) (l : List α)
    (hp : ∀ x, p x = true → p (f x) = true) :
    (l.map (fun x => if p x then f x else x)).find? p = (l.find? p).map f := by
  induction l with
  | nil => rfl
  | cons x t ih =>
    cases hx : p x with
    | true =>
      rw [List.map_cons, if_pos hx, List.find?_cons_of_pos _ (hp x hx),
        List.find?_cons_of_pos _ hx]
      rfl
    | false =>
      rw [List.map_cons, if_neg (by simp [hx]), List.find?_cons_of_neg _ (by simp [hx]),
        List.find?_cons_of_neg _ (by simp [hx])]
      exact ih

/-- When at most one row can match (pairwise non-overlapping matches) and
the first match is `s`, deleting the matching rows removes exactly `s`. -/
theorem filter_split_of_find {α : Type} (p : α → Bool) (l : List α)
    (hpair : l.Pairwise (fun a b => ¬(p a = true ∧ p b = true))) (s : α)
    (h : l.find? p = some s) :
    ∃ l₁ l₂, l = l₁ ++ s :: l₂ ∧ l.filter (fun x => !(p x)) = l₁ ++ l₂ := by
  induction l with
  | nil => simp at h
  | cons x t ih =>
    rw [List.pairwise_cons] at hpair
    cases hx : p x with
    | true =>
      rw [List.find?_cons_of_pos _ hx] at h
      injection h with h
      subst h
      refine ⟨[], t, rfl, ?_⟩
      rw [List.filter_cons_of_neg (by simp [hx])]
      simp only [List.nil_append]
      apply filter_not_of_find_none
      rw [List.find?_eq_none]
      intro b hb hpb
      exact hpair.1 b hb ⟨hx, hpb⟩
    | false =>
      rw [List.find?_cons_of_neg _ (by simp [hx])] at h
      obtain ⟨l₁, l₂, hl, hfil⟩ := ih hpair.2 h
      refine ⟨x :: l₁, l₂, by rw [List.cons_append, ← hl], ?_⟩
      rw [List.filter_cons_of_pos (by simp [hx]), hfil, List.cons_append]

/-- `res[0]` of the left join for one account row: always a row, pairing
the account with the first matching user (or `none`). -/
theorem head_leftJoinAccountUser (st : Store) (a : Account) :
    (leftJoinAccountUser st a).head? =
      some (a, st.users.find? (fun u => a.userId == u.id)) := by
  unfold leftJoinAccountUser
  cases h : st.users.filter (fun u => a.userId == u.id) with
  | nil =>
    have hf : st.users.find? (fun u => a.userId == u.id) = none := by
      rw [← head_filter_eq_find, h]; rfl
    simp [hf]
  | cons u us =>
    have hf : st.users.find? (fun u => a.userId == u.id) = some u := by
      rw [← head_filter_eq_find, h]; rfl
    simp [hf]

/-! ### Concrete rows and stores used as witnesses/counterexamples -/

/-- A stored verification token. -/
def vtEx : VerificationToken := { identifier := "alice", token := "tok1", expires := 7 }

/-- A store holding exactly `vtEx`. -/
def vtStoreEx : Store :=
  { users := [], accounts := [], sessions := [], verificationTokens := [vtEx] }

/-- The empty store. -/
def emptyStore : Store :=
  { users := [], accounts := [], sessions := [], verificationTokens := [] }

/-! ### Claims -/

/-- **C1 (counterexample).** The claim says the second consumption of the
same (identifier, token) pair throws the "no verification token found"
error.  On the code it does not: the second select resolves with
`res[0] = undefined`, coerced to `null` by `?? null`, and neither the
select nor the delete rejects, so the `catch` never runs — the second call
resolves with `null` instead of throwing. -/
theorem useVerificationToken_second_call_resolves :
    useVerificationToken vtStoreEx "alice" "tok1" = Except.ok (some vtEx, emptyStore) ∧
    useVerificationToken emptyStore "alice" "tok1" = Except.ok (none, emptyStore) := by
  constructor <;> rfl

/-- **C1 (amended).** For every (identifier, token) pair stored in the
verification-token table, the first `useVerificationToken` call returns the
stored row and deletes the matching rows; the second call on the resulting
store resolves with `null` (it does not throw), and leaves the store as it
was after the first call. -/
theorem useVerificationToken_twice (st : Store) (ident tok : String)
    (v : VerificationToken)
    (h : st.verificationTokens.find? (fun x => x.identifier == ident && x.token == tok) = some v) :
    useVerificationToken st ident tok =
      Except.ok (some v,
        { st with verificationTokens :=
            (st.verificationTokens.filter (fun x => !(x.identifier == ident && x.token == tok))) }) ∧
    useVerificationToken
        { st with verificationTokens :=
            (st.verificationTokens.filter (fun x => !(x.identifier == ident && x.token == tok))) }
        ident tok =
      Except.ok (none,
        { st with verificationTokens :=
            (st.verificationTokens.filter (fun x => !(x.identifier == ident && x.token == tok))) }) := by
  constructor
  · simp only [useVerificationToken, h]
  · have h2 := find_filter_not
      (fun x : VerificationToken => x.identifier == ident && x.token == tok)
      st.verificationTokens
    simp only [useVerificationToken, h2, filter_not_of_find_none _ _ h2]

/-- Witness for C1's amended theorem at a concrete store. -/
theorem useVerificationToken_twice_witness :
    useVerificationToken vtStoreEx "alice" "tok1" =
      Except.ok (some vtEx,
        { vtStoreEx with verificationTokens :=
            (vtStoreEx.verificationTokens.filter (fun x => !(x.identifier == "alice" && x.token == "tok1"))) }) ∧
    useVerificationToken
        { vtStoreEx with verificationTokens :=
            (vtStoreEx.verificationTokens.filter (fun x => !(x.identifier == "alice" && x.token == "tok1"))) }
        "alice" "tok1" =
      Except.ok (none,
        { vtStoreEx with verificationTokens :=
            (vtStoreEx.verificationTokens.filter (fun x => !(x.identifier == "alice" && x.token == "tok1"))) }) :=
  useVerificationToken_twice vtStoreEx "alice" "tok1" vtEx rfl

/-- **C2.** `updateUser` on a payload whose `id` field is falsy (absent or
empty) throws the "No user id." error.  The check precedes the update
statement, so no mutation is issued: the error result carries no
post-state, and the store is untouched. -/
theorem updateUser_missing_id (st : Store) (d : UserUpdateInput)
    (h : jsFalsy d.id = true) :
    updateUser st d = Except.error AdapterError.noUserId := by
  simp [updateUser, h]

/-- Witness for C2 at a concrete payload without an id. -/
theorem updateUser_missing_id_witness :
    updateUser emptyStore
      { id := none, name := none, email := none, emailVerified := none, image := none } =
      Except.error AdapterError.noUserId :=
  updateUser_missing_id emptyStore
    { id := none, name := none, email := none, emailVerified := none, image := none } rfl

/-- **C9.** `useVerificationToken` on a pair with no matching row resolves
with `null` (it does not throw) and leaves the store unchanged: the select
yields no row (`?? null`), and the delete matches nothing. -/
theorem useVerificationToken_missing (st : Store) (ident tok : String)
    (h : st.verificationTokens.find? (fun v => v.identifier == ident && v.token == tok) = none) :
    useVerificationToken st ident tok = Except.ok (none, st) := by
  simp only [useVerificationToken, h, filter_not_of_find_none _ _ h]

/-- Witness for C9 at a concrete store and unmatched pair. -/
theorem useVerificationToken_missing_witness :
    useVerificationToken vtStoreEx "alice" "other" = Except.ok (none, vtStoreEx) :=
  useVerificationToken_missing vtStoreEx "alice" "other" rfl

/-- **C3.** On a payload with no id, `createUser` generates a fresh id
(`createId()`, passed here as `genId` together with its freshness), inserts
`{ ...data, id }`, and the subsequent `getUser` on the generated id returns
exactly the inserted fields plus that id. -/
theorem createUser_then_getUser (genId : String) (st : Store) (d : AdapterUserInput)
    (_hid : d.id = none)
    (hfresh : st.users.find? (fun u => u.id == genId) = none) :
    createUser genId st d =
      Except.ok (some (mkUserFromInput genId d),
        { st with users := st.users ++ [mkUserFromInput genId d] }) ∧
    getUser { st with users := st.users ++ [mkUserFromInput genId d] } genId =
      Except.ok (some (mkUserFromInput genId d),
        { st with users := st.users ++ [mkUserFromInput genId d] }) := by
  have hsel : selectUserById { st with users := st.users ++ [mkUserFromInput genId d] } genId
      = some (mkUserFromInput genId d) := by
    simp only [selectUserById, List.find?_append, hfresh]
    simp [mkUserFromInput]
  constructor
  · simp only [createUser, hsel]
  · simp only [getUser, hsel]

/-- Witness for C3: creating a user in the empty store and reading it back. -/
theorem createUser_then_getUser_witness :
    createUser "cuid1" emptyStore
      { id := none, name := some "Ada", email := "ada@example.com",
        emailVerified := none, image := none } =
      Except.ok (some (mkUserFromInput "cuid1"
        { id := none, name := some "Ada", email := "ada@example.com",
          emailVerified := none, image := none }),
        { emptyStore with users := emptyStore.users ++ [mkUserFromInput "cuid1"
            { id := none, name := some "Ada", email := "ada@example.com",
              emailVerified := none, image := none }] }) ∧
    getUser { emptyStore with users := emptyStore.users ++ [mkUserFromInput "cuid1"
        { id := none, name := some "Ada", email := "ada@example.com",
          emailVerified := none, image := none }] } "cuid1" =
      Except.ok (some (mkUserFromInput "cuid1"
        { id := none, name := some "Ada", email := "ada@example.com",
          emailVerified := none, image := none }),
        { emptyStore with users := emptyStore.users ++ [mkUserFromInput "cuid1"
            { id := none, name := some "Ada", email := "ada@example.com",
              emailVerified := none, image := none }] }) :=
  createUser_then_getUser "cuid1" emptyStore
    { id := none, name := some "Ada", email := "ada@example.com",
      emailVerified := none, image := none } rfl rfl

/-- **C10.** For every payload — also one that carries a caller-supplied
id — the row `createUser` stores and returns has the freshly generated id:
the spread `{ ...data, id }` overwrites the supplied id, which never
reaches the store (the ids of the resulting table are the old ids plus the
generated one). -/
theorem createUser_overwrites_supplied_id (genId : String) (st : Store)
    (d : AdapterUserInput)
    (hfresh : st.users.find? (fun u => u.id == genId) = none) :
    createUser genId st d =
      Except.ok (some (mkUserFromInput genId d),
        { st with users := st.users ++ [mkUserFromInput genId d] }) ∧
    (mkUserFromInput genId d).id = genId ∧
    (st.users ++ [mkUserFromInput genId d]).map User.id = st.users.map User.id ++ [genId] := by
  refine ⟨?_, rfl, by simp [mkUserFromInput]⟩
  have hsel : selectUserById { st with users := st.users ++ [mkUserFromInput genId d] } genId
      = some (mkUserFromInput genId d) := by
    simp only [selectUserById, List.find?_append, hfresh]
    simp [mkUserFromInput]
  simp only [createUser, hsel]

/-- Witness for C10: a payload carrying id "evil" is stored under the
generated id "cuid2". -/
theorem createUser_overwrites_supplied_id_witness :
    createUser "cuid2" emptyStore
      { id := some "evil", name := none, email := "bob@example.com",
        emailVerified := none, image := none } =
      Except.ok (some (mkUserFromInput "cuid2"
        { id := some "evil", name := none, email := "bob@example.com",
          emailVerified := none, image := none }),
        { emptyStore with users := emptyStore.users ++ [mkUserFromInput "cuid2"
            { id := some "evil", name := none, email := "bob@example.com",
              emailVerified := none, image := none }] }) ∧
    (mkUserFromInput "cuid2"
      { id := some "evil", name := none, email := "bob@example.com",
        emailVerified := none, image := none }).id = "cuid2" ∧
    (emptyStore.users ++ [mkUserFromInput "cuid2"
      { id := some "evil", name := none, email := "bob@example.com",
        emailVerified := none, image := none }]).map User.id =
      emptyStore.users.map User.id ++ ["cuid2"] :=
  createUser_overwrites_supplied_id "cuid2" emptyStore
    { id := some "evil", name := none, email := "bob@example.com",
      emailVerified := none, image := none } rfl

/-- **C6.** The pure lookups `getUser`, `getUserByEmail` and
`getSessionAndUser` never throw: each always resolves (`isOk`), and when no
row matches the argument it resolves with the explicit `null` sentinel and
an unchanged store. -/
theorem lookups_return_null_sentinel (st : Store) (x : String) :
    ((∀ u ∈ st.users, ¬ u.id = x) → getUser st x = Except.ok (none, st)) ∧
    ((∀ u ∈ st.users, ¬ u.email = x) → getUserByEmail st x = Except.ok (none, st)) ∧
    ((∀ s ∈ st.sessions, ¬ s.sessionToken = x) →
      getSessionAndUser st x = Except.ok (none, st)) ∧
    (getUser st x).isOk = true ∧ (getUserByEmail st x).isOk = true ∧
    (getSessionAndUser st x).isOk = true := by
  refine ⟨?_, ?_, ?_, rfl, rfl, rfl⟩
  · intro h
    have hf : st.users.find? (fun u => u.id == x) = none := by
      rw [List.find?_eq_none]
      intro u hu
      simpa using h u hu
    simp only [getUser, selectUserById, hf]
  · intro h
    have hf : st.users.find? (fun u => u.email == x) = none := by
      rw [List.find?_eq_none]
      intro u hu
      simpa using h u hu
    simp only [getUserByEmail, hf]
  · intro h
    have hf : st.sessions.filter (fun s => s.sessionToken == x) = [] := by
      rw [List.filter_eq_nil_iff]
      intro s hs
      simpa using h s hs
    simp only [getSessionAndUser, hf, List.flatMap_nil, List.head?_nil]

/-- Witness for C6: all three lookups on the empty store. -/
theorem lookups_return_null_sentinel_witness :
    getUser emptyStore "zzz" = Except.ok (none, emptyStore) ∧
    getUserByEmail emptyStore "zzz" = Except.ok (none, emptyStore) ∧
    getSessionAndUser emptyStore "zzz" = Except.ok (none, emptyStore) :=
  ⟨(lookups_return_null_sentinel emptyStore "zzz").1 (by simp [emptyStore]),
   (lookups_return_null_sentinel emptyStore "zzz").2.1 (by simp [emptyStore]),
   (lookups_return_null_sentinel emptyStore "zzz").2.2.1 (by simp [emptyStore])⟩

/-- **C4.** `getUserByAccount` resolves with: `null` when no account row
matches (provider, providerAccountId); the left-joined `user` component of
the first matching account otherwise — which is `null` when no user row
carries the account's userId, and the joined user when one does. -/
theorem getUserByAccount_cases (st : Store) (prov paid : String) :
    getUserByAccount st prov paid =
      Except.ok
        ((match st.accounts.find? (fun a => a.providerAccountId == paid && a.provider == prov) with
          | none => none
          | some a => st.users.find? (fun u => a.userId == u.id)), st) := by
  have hne : ∀ a : Account, leftJoinAccountUser st a ≠ [] := by
    intro a
    unfold leftJoinAccountUser
    cases h : st.users.filter (fun u => a.userId == u.id) <;> simp
  have hrows :
      ((st.accounts.filter (fun a => a.providerAccountId == paid && a.provider == prov)).flatMap
        (leftJoinAccountUser st)).head?
      = (st.accounts.find? (fun a => a.providerAccountId == paid && a.provider == prov)).bind
          (fun a => (leftJoinAccountUser st a).head?) :=
    head_filter_flatMap _ _ _ hne
  simp only [getUserByAccount, hrows]
  cases hacc : st.accounts.find? (fun a => a.providerAccountId == paid && a.provider == prov) with
  | none => rfl
  | some a => simp [head_leftJoinAccountUser]

/-- **C5.** `deleteSession`: on a token with no matching row it resolves
with `null` and leaves every table unchanged (the delete removes nothing);
on a stored token — sessionToken being the primary key, matches are unique
— it returns the previously-existing row and removes exactly that row. -/
theorem deleteSession_cases (st : Store) (tok : String)
    (hkey : st.sessions.Pairwise (fun a b => a.sessionToken ≠ b.sessionToken)) :
    (st.sessions.find? (fun s => s.sessionToken == tok) = none →
      deleteSession st tok = Except.ok (none, st)) ∧
    (∀ s, st.sessions.find? (fun s => s.sessionToken == tok) = some s →
      ∃ l₁ l₂, st.sessions = l₁ ++ s :: l₂ ∧
        deleteSession st tok = Except.ok (some s, { st with sessions := l₁ ++ l₂ })) := by
  constructor
  · intro h
    simp only [deleteSession, h, filter_not_of_find_none _ _ h]
  · intro s hs
    have hpair : st.sessions.Pairwise
        (fun a b => ¬((a.sessionToken == tok) = true ∧ (b.sessionToken == tok) = true)) := by
      refine hkey.imp ?_
      intro a b hab hc
      obtain ⟨ha, hb⟩ := hc
      rw [beq_iff_eq] at ha hb
      exact hab (by rw [ha, hb])
    obtain ⟨l₁, l₂, hl, hfil⟩ := filter_split_of_find _ _ hpair s hs
    exact ⟨l₁, l₂, hl, by simp only [deleteSession, hs, hfil]⟩

/-- Witness for C5 (first conjunct) at a store holding one session and a
token that matches no row. -/
theorem deleteSession_cases_witness :
    deleteSession
      { users := [], accounts := [],
        sessions := [{ sessionToken := "sess1", userId := "u1", expires := 42 }],
        verificationTokens := [] } "nope" =
    Except.ok (none,
      { users := [], accounts := [],
        sessions := [{ sessionToken := "sess1", userId := "u1", expires := 42 }],
        verificationTokens := [] }) :=
  (deleteSession_cases
    { users := [], accounts := [],
      sessions := [{ sessionToken := "sess1", userId := "u1", expires := 42 }],
      verificationTokens := [] } "nope" (by simp)).1 rfl

/-- **C7.** `updateSession` rewrites the rows keyed by the payload's
sessionToken (the merge keeps the key, which the payload always carries
with the same value the `where` matched), re-reads by the same token, and
resolves with the updated first match — `undefined` (`none`) when no row
with that token exists after the update. -/
theorem updateSession_reread (st : Store) (d : SessionUpdateInput) :
    updateSession st d =
      Except.ok
        ((st.sessions.find? (fun s => s.sessionToken == d.sessionToken)).map (applySessionUpdate d),
        { st with sessions :=
            (st.sessions.map (fun s => if s.sessionToken == d.sessionToken
              then applySessionUpdate d s else s)) }) := by
  have hp : ∀ s : Session, (s.sessionToken == d.sessionToken) = true →
      ((applySessionUpdate d s).sessionToken == d.sessionToken) = true := by
    intro s _
    simp [applySessionUpdate]
  simp only [updateSession,
    find_map_update (fun s : Session => s.sessionToken == d.sessionToken)
      (applySessionUpdate d) st.sessions hp]

/-- A verification token stored before the C8 insert, same identifier,
different token. -/
def vtOldEx : VerificationToken := { identifier := "alice", token := "tokA", expires := 3 }

/-- The verification token inserted in the C8 counterexample. -/
def vtNewEx : VerificationToken := { identifier := "alice", token := "tokB", expires := 9 }

/-- **C8 (counterexample).** The claim says `createVerificationToken`
returns the token just inserted even when other rows share the identifier
with a different token.  It does not: the re-read filters by identifier
alone and takes `res[0]`, so with `vtOldEx` already stored, inserting
`vtNewEx` resolves with the pre-existing `vtOldEx`, not the inserted row. -/
theorem createVerificationToken_stale_reread :
    createVerificationToken
      { users := [], accounts := [], sessions := [], verificationTokens := [vtOldEx] }
      vtNewEx =
      Except.ok (some vtOldEx,
        { users := [], accounts := [], sessions := [],
          verificationTokens := [vtOldEx, vtNewEx] }) ∧
    vtOldEx ≠ vtNewEx := by
  exact ⟨rfl, by decide⟩

/-- **C8 (amended).** `createVerificationToken` inserts the row and
resolves with the first stored row whose identifier matches; when no
already-stored row shares the identifier, that is exactly the inserted
token. -/
theorem createVerificationToken_fresh_identifier (st : Store) (t : VerificationToken)
    (h : st.verificationTokens.find? (fun v => v.identifier == t.identifier) = none) :
    createVerificationToken st t =
      Except.ok (some t, { st with verificationTokens := st.verificationTokens ++ [t] }) := by
  simp only [createVerificationToken, List.find?_append, h, Option.none_or]
  simp

/-- Witness for C8's amended theorem: inserting into the empty store. -/
theorem createVerificationToken_fresh_identifier_witness :
    createVerificationToken emptyStore vtNewEx =
      Except.ok (some vtNewEx,
        { emptyStore with verificationTokens := emptyStore.verificationTokens ++ [vtNewEx] }) :=
  createVerificationToken_fresh_identifier emptyStore vtNewEx rfl
